import Mathlib

/-!
Verification of the focus-safety routine in
`src/packages/@react-aria/focus/src/focusSafely.ts`.

Shallow embedding: DOM elements are natural-number handles; the ambient
DOM state (the currently focused element, attachment to the document,
the `Node.contains` relation) and the interaction modality are explicit
parameters.  Each routine is translated into a pure function returning a
trace of the side effects it performs: calls to the focus-without-scroll
primitive (`focusWithoutScrolling`), registrations with the shared
`IntersectionObserver` (`observe`), direct scroll calls, whether a
continuation was scheduled via `runAfterTransition`, and whether a
`TypeError` escapes to the caller.
-/

/-- The interaction modality returned by `getInteractionModality`:
`'pointer' | 'keyboard' | 'virtual'`, or `null` (here `unknown`). -/
inductive Modality where
  | pointer
  | keyboard
  | virtual
  | unknown
deriving DecidableEq, Repr

/-- Trace of the observable effects of one run of `focusSafely` (or of
its deferred continuation).  `modalityReads` counts calls to
`getInteractionModality`; `modalityWrites` counts writes to the ambient
modality state (the source never writes it); `focusCalls`,
`observeCalls` and `scrollCalls` list, in order, the arguments of calls
to `focusWithoutScrolling`, `intersectionObserver.observe` and any
direct scroll primitive; `scheduled` records whether a continuation was
handed to `runAfterTransition`; `throws` records whether an exception
escapes to the caller. -/
structure Outcome where
  modalityReads : Nat := 0
  modalityWrites : Nat := 0
  focusCalls : List Nat := []
  observeCalls : List Nat := []
  scrollCalls : List Nat := []
  scheduled : Bool := false
  throws : Bool := false
deriving DecidableEq, Repr

/-- The `IntersectionObserverInit` options record built at lines 19-23
of the source. -/
structure IntersectionObserverInit where
  root : Option Nat
  rootMargin : String
  threshold : Nat
deriving DecidableEq, Repr

/-- `intersectionObserverOptions` from the source:
`{root: undefined, rootMargin: '0px', threshold: 1}`. -/
def intersectionObserverOptions : IntersectionObserverInit :=
  { root := none, rootMargin := "0px", threshold := 1 }

/-- The `ScrollIntoViewOptions` record built at lines 25-29 of the
source. -/
structure ScrollIntoViewOptions where
  behavior : String
  block : String
  inlineAlign : String
deriving DecidableEq, Repr

/-- `scrollIntoViewOptions` from the source:
`{behavior: 'auto', block: 'nearest', inline: 'nearest'}`
(the `inline` field is named `inlineAlign` here because `inline` is not
a usable field name in Lean). -/
def scrollIntoViewOptions : ScrollIntoViewOptions :=
  { behavior := "auto", block := "nearest", inlineAlign := "nearest" }

/-- One `IntersectionObserverEntry` as seen by the observer callback:
the observed target and whether it is intersecting the viewport at the
configured threshold. -/
structure IOEntry where
  target : Nat
  isIntersecting : Bool
deriving DecidableEq, Repr

/-- A scroll-into-view request issued by the observer callback:
`runAfterTransition(() => entry.target.scrollIntoView(scrollIntoViewOptions))`.
`afterTransition` records that the scroll is gated on transition
completion rather than performed synchronously. -/
structure ScrollRequest where
  target : Nat
  options : ScrollIntoViewOptions
  afterTransition : Bool
deriving DecidableEq, Repr

/-- Effects of one run of `intersectionObserverCallback`:
the scroll corrections it schedules and the elements it unobserves, in
order. -/
structure CallbackOutcome where
  scheduledScrolls : List ScrollRequest
  unobserved : List Nat
deriving DecidableEq, Repr

/-- `intersectionObserverCallback` (source lines 31-39): for each entry,
if the entry is not intersecting, schedule (after transitions) a
scroll-into-view with `scrollIntoViewOptions`; then unobserve the
entry's target. -/
def intersectionObserverCallback : List IOEntry → CallbackOutcome
  | [] => { scheduledScrolls := [], unobserved := [] }
  | entry :: rest =>
    let tail := intersectionObserverCallback rest
    { scheduledScrolls :=
        (if entry.isIntersecting then []
         else [{ target := entry.target, options := scrollIntoViewOptions,
                 afterTransition := true }]) ++ tail.scheduledScrolls,
      unobserved := entry.target :: tail.unobserved }

/-- The process-wide observer built by the IIFE at source lines 18-46:
`new IntersectionObserver(...)` inside `try`, returning `undefined` when
construction throws.  `constructionSucceeds` abstracts whether the host
supports `IntersectionObserver`. -/
def intersectionObserver (constructionSucceeds : Bool) :
    Option IntersectionObserverInit :=
  if constructionSucceeds then some intersectionObserverOptions else none

/-- The synchronous body of `focusSafely` (source lines 53-90).
`watcher` is `(intersectionObserver _).isSome`; `modality` is the value
read from `getInteractionModality()`; `activeElement` is
`document.activeElement` at call time (`none` models `null`);
`contains a b` models `a.contains(b)`; `element` is the target.

On the virtual path nothing happens synchronously except scheduling the
continuation (modelled separately by `focusSafelyDeferredCont`).  On the
other paths `focusWithoutScrolling(element)` runs first; then, if the
observer exists, the registration condition is evaluated: when the
modality is `pointer` this dereferences `lastFocusedElement`, which
throws a `TypeError` when `document.activeElement` was `null`. -/
def focusSafely (watcher : Bool) (modality : Modality)
    (activeElement : Option Nat) (contains : Nat → Nat → Bool)
    (element : Nat) : Outcome :=
  let lastFocusedElement := activeElement
  if modality = Modality.virtual then
    { modalityReads := 1, scheduled := true }
  else
    if watcher then
      if modality ≠ Modality.pointer then
        { modalityReads := 1, focusCalls := [element],
          observeCalls := [element] }
      else
        match lastFocusedElement with
        | none =>
          { modalityReads := 1, focusCalls := [element], throws := true }
        | some lf =>
          if contains lf element || contains element lf ||
              decide (element = lf) then
            { modalityReads := 1, focusCalls := [element] }
          else
            { modalityReads := 1, focusCalls := [element],
              observeCalls := [element] }
    else
      { modalityReads := 1, focusCalls := [element] }

/-- The continuation that the virtual path of `focusSafely` hands to
`runAfterTransition` (source lines 63-71).  It closes over `watcher`,
`lastFocusedElement` and `element`; `activeElementNow` and
`documentContains` are the DOM state at the (arbitrarily later) time the
continuation runs.  If focus has not moved and the element is still in
the document, it focuses the element and, when the observer exists,
observes it; otherwise it does nothing. -/
def focusSafelyDeferredCont (watcher : Bool)
    (lastFocusedElement : Option Nat) (activeElementNow : Option Nat)
    (documentContains : Nat → Bool) (element : Nat) : Outcome :=
  if activeElementNow = lastFocusedElement ∧ documentContains element = true then
    { focusCalls := [element],
      observeCalls := if watcher then [element] else [] }
  else
    {}

/-- C1: on the virtual modality, `focusSafely` moves no focus
synchronously and issues no registration or scroll; it schedules a
single continuation via `runAfterTransition`.  When that continuation
runs it calls `focusWithoutScrolling(element)` exactly when the
currently focused element is still identical to the captured
`lastFocusedElement` and the element is still in the document, and it
registers the element with the observer exactly when, in addition, the
observer exists; in every other case it performs no focus move and no
registration. -/
theorem focusSafely_virtual_path (watcher : Bool) (active : Option Nat)
    (contains : Nat → Nat → Bool) (e : Nat) (activeLater : Option Nat)
    (attached : Nat → Bool) :
    (focusSafely watcher Modality.virtual active contains e).focusCalls = [] ∧
    (focusSafely watcher Modality.virtual active contains e).observeCalls = [] ∧
    (focusSafely watcher Modality.virtual active contains e).scrollCalls = [] ∧
    (focusSafely watcher Modality.virtual active contains e).scheduled = true ∧
    (focusSafelyDeferredCont watcher active activeLater attached e).focusCalls
      = (if activeLater = active ∧ attached e = true then [e] else []) ∧
    (focusSafelyDeferredCont watcher active activeLater attached e).observeCalls
      = (if (activeLater = active ∧ attached e = true) ∧ watcher = true
         then [e] else []) := by
  refine ⟨rfl, rfl, rfl, rfl, ?_, ?_⟩ <;>
    · unfold focusSafelyDeferredCont
      split <;> rename_i h <;> simp_all <;> cases watcher <;> simp_all

/-- C2: on every modality other than virtual, `focusSafely` calls the
focus-without-scroll primitive on the target synchronously, exactly
once, schedules no continuation, and performs no scroll itself. -/
theorem focusSafely_nonvirtual_sync (watcher : Bool) (m : Modality)
    (active : Option Nat) (contains : Nat → Nat → Bool) (e : Nat)
    (h : m ≠ Modality.virtual) :
    (focusSafely watcher m active contains e).focusCalls = [e] ∧
    (focusSafely watcher m active contains e).scrollCalls = [] ∧
    (focusSafely watcher m active contains e).scheduled = false := by
  unfold focusSafely
  simp only [if_neg h]
  cases watcher <;> cases m <;> simp_all <;>
    · cases active <;> [skip; rename_i lf] <;> simp <;> split <;> simp

/-- Witness for C2 at a concrete input: keyboard modality, no observer,
target 0. -/
theorem focusSafely_nonvirtual_sync_witness :
    (focusSafely false Modality.keyboard none (fun _ _ => false) 0).focusCalls = [0] ∧
    (focusSafely false Modality.keyboard none (fun _ _ => false) 0).scrollCalls = [] ∧
    (focusSafely false Modality.keyboard none (fun _ _ => false) 0).scheduled = false :=
  focusSafely_nonvirtual_sync false Modality.keyboard none (fun _ _ => false) 0
    (by decide)

/-- C3: on a non-virtual modality with a (non-null) previously focused
element `lf`, the target is registered with the observer if and only if
the observer exists and it is not the case that the modality is pointer
and `lf` and the target stand in an ancestor, descendant, or identity
relationship; in particular keyboard and unknown modalities always
register when the observer exists. -/
theorem focusSafely_observe_condition (watcher : Bool) (m : Modality)
    (lf : Nat) (contains : Nat → Nat → Bool) (e : Nat)
    (h : m ≠ Modality.virtual) :
    (focusSafely watcher m (some lf) contains e).observeCalls
      = (if watcher = true ∧
           ¬(m = Modality.pointer ∧
             (contains lf e || contains e lf || decide (e = lf)) = true)
         then [e] else []) := by
  unfold focusSafely
  simp only [if_neg h]
  cases hb : (contains lf e || contains e lf || decide (e = lf)) <;>
    cases watcher <;> cases m <;> simp_all

/-- Witness for C3 at a concrete input: pointer modality, observer
present, target 1 a child of the previously focused element 0 (so
registration is skipped). -/
theorem focusSafely_observe_condition_witness :
    (focusSafely true Modality.pointer (some 0)
        (fun a b => a = 0 && b = 1) 1).observeCalls
      = (if (true : Bool) = true ∧
           ¬(Modality.pointer = Modality.pointer ∧
             ((fun (a b : Nat) => a = 0 && b = 1) 0 1 ||
              (fun (a b : Nat) => a = 0 && b = 1) 1 0 ||
              decide ((1 : Nat) = 0)) = true)
         then [1] else []) :=
  focusSafely_observe_condition true Modality.pointer 0
    (fun a b => a = 0 && b = 1) 1 (by decide)

/-- C4: across one invocation of `focusSafely`, the
focus-without-scroll primitive runs at most once: the number of
synchronous focus calls, plus the number of focus calls made by the
deferred continuation when one was scheduled, never exceeds one. -/
theorem focusSafely_focus_at_most_once (watcher : Bool) (m : Modality)
    (active : Option Nat) (contains : Nat → Nat → Bool) (e : Nat)
    (activeLater : Option Nat) (attached : Nat → Bool) :
    (focusSafely watcher m active contains e).focusCalls.length +
      (if (focusSafely watcher m active contains e).scheduled = true
       then (focusSafelyDeferredCont watcher active activeLater attached e).focusCalls.length
       else 0) ≤ 1 := by
  unfold focusSafely focusSafelyDeferredCont
  cases m <;> cases watcher <;> simp_all <;>
    first
    | (split <;> simp)
    | (cases active <;> simp <;> split <;> simp)

/-- C5: the observer callback, for every list of reported entries,
schedules a transition-gated scroll-into-view with nearest-edge
alignment for exactly the entries reported as not intersecting, and
unobserves every reported target (so no second report can occur for it
without a new registration). -/
theorem intersectionObserverCallback_spec (entries : List IOEntry) :
    (intersectionObserverCallback entries).unobserved
      = entries.map IOEntry.target ∧
    (intersectionObserverCallback entries).scheduledScrolls
      = (entries.filter (fun en => !en.isIntersecting)).map
          (fun en => { target := en.target, options := scrollIntoViewOptions,
                       afterTransition := true }) ∧
    scrollIntoViewOptions.block = "nearest" ∧
    scrollIntoViewOptions.inlineAlign = "nearest" := by
  refine ⟨?_, ?_, rfl, rfl⟩ <;>
  · induction entries with
    | nil => rfl
    | cons entry rest ih =>
      cases h : entry.isIntersecting <;>
        simp [intersectionObserverCallback, h, ih, List.filter]

/-- Helper: with the observer absent, `focusSafely` reduces to either
scheduling the continuation (virtual) or a bare focus call. -/
theorem focusSafely_no_watcher (m : Modality) (active : Option Nat)
    (contains : Nat → Nat → Bool) (e : Nat) :
    focusSafely false m active contains e
      = if m = Modality.virtual
        then { modalityReads := 1, scheduled := true }
        else { modalityReads := 1, focusCalls := [e] } := by
  unfold focusSafely
  split <;> rfl

/-- Helper: the focus calls of the synchronous body depend only on the
modality: none on the virtual path, exactly one otherwise. -/
theorem focusSafely_focusCalls_eq (watcher : Bool) (m : Modality)
    (active : Option Nat) (contains : Nat → Nat → Bool) (e : Nat) :
    (focusSafely watcher m active contains e).focusCalls
      = if m = Modality.virtual then [] else [e] := by
  unfold focusSafely
  cases m <;> cases watcher <;> cases active <;> simp <;> split <;> simp

/-- Helper: the synchronous body schedules a continuation exactly on the
virtual path. -/
theorem focusSafely_scheduled_eq (watcher : Bool) (m : Modality)
    (active : Option Nat) (contains : Nat → Nat → Bool) (e : Nat) :
    (focusSafely watcher m active contains e).scheduled
      = decide (m = Modality.virtual) := by
  unfold focusSafely
  cases m <;> cases watcher <;> cases active <;> simp <;> split <;> simp

/-- Helper: the synchronous body reads the modality exactly once. -/
theorem focusSafely_modalityReads_eq (watcher : Bool) (m : Modality)
    (active : Option Nat) (contains : Nat → Nat → Bool) (e : Nat) :
    (focusSafely watcher m active contains e).modalityReads = 1 := by
  unfold focusSafely
  cases m <;> cases watcher <;> cases active <;> simp <;> split <;> simp

/-- Helper: the synchronous body never writes the modality state. -/
theorem focusSafely_modalityWrites_eq (watcher : Bool) (m : Modality)
    (active : Option Nat) (contains : Nat → Nat → Bool) (e : Nat) :
    (focusSafely watcher m active contains e).modalityWrites = 0 := by
  unfold focusSafely
  cases m <;> cases watcher <;> cases active <;> simp <;> split <;> simp

/-- C6: when construction of the observer fails, `intersectionObserver`
is `none` (permanently absent), and every call to `focusSafely` in the
degraded mode throws nothing, registers nothing (synchronously and in
the deferred continuation), and performs exactly the same focus calls
and scheduling as the non-degraded mode. -/
theorem focusSafely_degraded (m : Modality) (active : Option Nat)
    (contains : Nat → Nat → Bool) (e : Nat) (activeLater : Option Nat)
    (attached : Nat → Bool) :
    intersectionObserver false = none ∧
    (focusSafely false m active contains e).observeCalls = [] ∧
    (focusSafely false m active contains e).throws = false ∧
    (focusSafely false m active contains e).focusCalls
      = (focusSafely true m active contains e).focusCalls ∧
    (focusSafely false m active contains e).scheduled
      = (focusSafely true m active contains e).scheduled ∧
    (focusSafelyDeferredCont false active activeLater attached e).observeCalls = [] ∧
    (focusSafelyDeferredCont false active activeLater attached e).throws = false ∧
    (focusSafelyDeferredCont false active activeLater attached e).focusCalls
      = (focusSafelyDeferredCont true active activeLater attached e).focusCalls := by
  refine ⟨rfl, ?_, ?_, ?_, ?_, ?_, ?_, ?_⟩
  · rw [focusSafely_no_watcher]
    split <;> rfl
  · rw [focusSafely_no_watcher]
    split <;> rfl
  · rw [focusSafely_no_watcher, focusSafely_focusCalls_eq]
    split <;> rfl
  · rw [focusSafely_no_watcher, focusSafely_scheduled_eq]
    split <;> simp_all
  · unfold focusSafelyDeferredCont
    split <;> rfl
  · unfold focusSafelyDeferredCont
    split <;> rfl
  · unfold focusSafelyDeferredCont
    split <;> rfl

/-- C7 (refuted, code bug): the claim states that `focusSafely` never
raises for any modality and any state of the currently focused element,
including a null `document.activeElement`.  On the pointer modality with
the observer present and `document.activeElement === null`, the source
evaluates `lastFocusedElement.contains(element)` (line 81) on `null`
and a `TypeError` escapes to the caller. -/
theorem focusSafely_throws_on_null_active_pointer :
    (focusSafely true Modality.pointer none (fun _ _ => false) 0).throws = true := by
  decide

/-- C8: `focusSafely` reads the modality exactly once, at invocation
time (the deferred continuation reads it zero times), never writes the
modality state, and uses the captured `lastFocusedElement` only through
the identity comparison and the two containment tests: whenever those
tests agree at `lf` and at an arbitrary other element `lg`, both the
synchronous outcome and the deferred outcome are unchanged by replacing
`lf` with `lg`. -/
theorem focusSafely_frame_effects (watcher : Bool) (m : Modality)
    (contains : Nat → Nat → Bool) (e : Nat) (activeLater : Option Nat)
    (attached : Nat → Bool) (lf lg : Nat)
    (h1 : contains lf e = contains lg e)
    (h2 : contains e lf = contains e lg)
    (h3 : (e = lf) ↔ (e = lg))
    (h4 : (activeLater = some lf) ↔ (activeLater = some lg)) :
    (focusSafely watcher m (some lf) contains e).modalityReads = 1 ∧
    (focusSafely watcher m (some lf) contains e).modalityWrites = 0 ∧
    focusSafely watcher m (some lf) contains e
      = focusSafely watcher m (some lg) contains e ∧
    (focusSafelyDeferredCont watcher (some lf) activeLater attached e).modalityReads = 0 ∧
    (focusSafelyDeferredCont watcher (some lf) activeLater attached e).modalityWrites = 0 ∧
    focusSafelyDeferredCont watcher (some lf) activeLater attached e
      = focusSafelyDeferredCont watcher (some lg) activeLater attached e := by
  refine ⟨focusSafely_modalityReads_eq _ _ _ _ _,
    focusSafely_modalityWrites_eq _ _ _ _ _, ?_, ?_, ?_, ?_⟩
  · unfold focusSafely
    cases m <;> cases watcher <;> simp_all
  · unfold focusSafelyDeferredCont
    split <;> rfl
  · unfold focusSafelyDeferredCont
    split <;> rfl
  · unfold focusSafelyDeferredCont
    by_cases hc : activeLater = some lf ∧ attached e = true
    · have hc2 : activeLater = some lg ∧ attached e = true := ⟨h4.mp hc.1, hc.2⟩
      rw [if_pos hc, if_pos hc2]
    · have hc2 : ¬(activeLater = some lg ∧ attached e = true) :=
        fun hg => hc ⟨h4.mpr hg.1, hg.2⟩
      rw [if_neg hc, if_neg hc2]

/-- Witness for C8 at a concrete input: pointer modality, observer
present, `lf = lg = 0`, target 1. -/
theorem focusSafely_frame_effects_witness :
    (focusSafely true Modality.pointer (some 0) (fun _ _ => false) 1).modalityReads = 1 ∧
    (focusSafely true Modality.pointer (some 0) (fun _ _ => false) 1).modalityWrites = 0 ∧
    focusSafely true Modality.pointer (some 0) (fun _ _ => false) 1
      = focusSafely true Modality.pointer (some 0) (fun _ _ => false) 1 ∧
    (focusSafelyDeferredCont true (some 0) (some 0) (fun _ => true) 1).modalityReads = 0 ∧
    (focusSafelyDeferredCont true (some 0) (some 0) (fun _ => true) 1).modalityWrites = 0 ∧
    focusSafelyDeferredCont true (some 0) (some 0) (fun _ => true) 1
      = focusSafelyDeferredCont true (some 0) (some 0) (fun _ => true) 1 :=
  focusSafely_frame_effects true Modality.pointer (fun _ _ => false) 1
    (some 0) (fun _ => true) 0 0 rfl rfl Iff.rfl Iff.rfl

/-- C9: on the virtual path, once the staleness guard of the deferred
continuation passes and the observer exists, the target is registered
unconditionally: the continuation takes no containment relation into
account, so registration happens even when the target is identical to
(or related by containment to) the previously focused element. -/
theorem focusSafely_virtual_observe_unconditional (lastF : Option Nat)
    (activeLater : Option Nat) (attached : Nat → Bool) (e : Nat)
    (hguard : activeLater = lastF ∧ attached e = true) :
    (focusSafelyDeferredCont true lastF activeLater attached e).observeCalls = [e] := by
  unfold focusSafelyDeferredCont
  rw [if_pos hguard]
  simp

/-- Witness for C9 at a concrete input in which the target IS the
previously focused element (identity relationship), and registration
still happens. -/
theorem focusSafely_virtual_observe_unconditional_witness :
    (focusSafelyDeferredCont true (some 5) (some 5) (fun _ => true) 5).observeCalls = [5] :=
  focusSafely_virtual_observe_unconditional (some 5) (some 5) (fun _ => true) 5
    (by decide)

/-- C10: the observer is configured with threshold 1 (full visibility)
and zero root margin, the scheduled correction uses instant `auto`
scroll behavior with nearest-edge alignment, and, for any entry, the
callback schedules a correction exactly when the entry is reported as
not intersecting. -/
theorem intersectionObserver_config (s : Bool) (en : IOEntry) :
    intersectionObserverOptions.threshold = 1 ∧
    intersectionObserverOptions.rootMargin = "0px" ∧
    intersectionObserver s = (if s then some intersectionObserverOptions else none) ∧
    scrollIntoViewOptions.behavior = "auto" ∧
    scrollIntoViewOptions.block = "nearest" ∧
    scrollIntoViewOptions.inlineAlign = "nearest" ∧
    (intersectionObserverCallback [en]).scheduledScrolls
      = (if en.isIntersecting then []
         else [{ target := en.target, options := scrollIntoViewOptions,
                 afterTransition := true }]) := by
  refine ⟨rfl, rfl, rfl, rfl, rfl, rfl, ?_⟩
  cases h : en.isIntersecting <;> simp [intersectionObserverCallback, h]
